import Mathlib

/-!
Verification of the UCI packet decoder (`src/uci.rs`) against its
natural-language specification.

Modelling conventions:
* Bytes are `Nat` values (each < 256 whenever produced by the hex parser);
  machine arithmetic that can wrap is written out explicitly.
* Input strings are lists of characters; each character stands for one byte
  of the Rust `String` (exact for the ASCII hex-string domain of the tool).
* A Rust `panic!` (out-of-bounds slice or index) is modelled by `Option`:
  `none` from an access means the decode aborts.  The overall outcome of a
  decoding routine is a `Status`: `ok`, a typed error `err msg`
  (`UciPacketParseError` in the source), or `panic`.
* Output produced through the `Printer` trait is collected into a list of
  `OutItem`s, in emission order.  The one raw `println!` in the range-data
  printer bypasses the `Printer` trait and is not part of the report.
-/

namespace Uci

/-- `Packet` from `uci.rs`: an immutable owned byte sequence. -/
structure Packet where
  bytes : List Nat
deriving DecidableEq

/-- `Packet::mt`: `bytes[0] >> 5`; `none` models the index panic. -/
def Packet.mt (p : Packet) : Option Nat :=
  (p.bytes.get? 0).map (fun b => b / 32)

/-- `Packet::gid`: `bytes[0] & 0xf`. -/
def Packet.gid (p : Packet) : Option Nat :=
  (p.bytes.get? 0).map (fun b => b % 16)

/-- `Packet::oid`: `bytes[1]`. -/
def Packet.oid (p : Packet) : Option Nat :=
  p.bytes.get? 1

/-- `Packet::len`: `bytes[3]`, the declared payload length. -/
def Packet.len (p : Packet) : Option Nat :=
  p.bytes.get? 3

/-- `Packet::get`: payload access `bytes[idx + 4]`. -/
def Packet.get (p : Packet) (idx : Nat) : Option Nat :=
  p.bytes.get? (idx + 4)

/-- `Packet::slice`: payload slice `&bytes[idx+4 .. idx+len+4]`;
`none` models the slice panic when the upper bound exceeds the buffer. -/
def Packet.slice (p : Packet) (idx len : Nat) : Option (List Nat) :=
  if idx + len + 4 ≤ p.bytes.length then
    some ((p.bytes.drop (idx + 4)).take len)
  else
    none

/-- Raw (header-relative) slice `&pkt.bytes[offset .. offset+len]`,
as used only by the `CharArray` branch of `print_field`. -/
def Packet.rawSlice (p : Packet) (offset len : Nat) : Option (List Nat) :=
  if offset + len ≤ p.bytes.length then
    some ((p.bytes.drop offset).take len)
  else
    none

/- Hex/decimal formatting helpers used by the Rust `format!` strings. -/

/-- Minimal lowercase hex digits of `n` (Rust `{:x}`). -/
def hexMin (n : Nat) : String :=
  ⟨Nat.toDigits 16 n⟩

/-- Rust `{:#04x}` on a byte: `0x` plus two zero-padded hex digits. -/
def hex2 (n : Nat) : String :=
  "0x" ++ (if n < 16 then "0" else "") ++ hexMin n

/-- `k` spaces. -/
def spaces (k : Nat) : String :=
  ⟨List.replicate k ' '⟩

/-- Rust `{:#Wx}`: `0x`-prefixed hex, space-padded on the left to width `w`. -/
def hexPad (w n : Nat) : String :=
  spaces (w - ("0x" ++ hexMin n).length) ++ ("0x" ++ hexMin n)

/-- The `Display` implementation for `Packet`:
`"mt:{:#3x} gid:{:#3x} oid:{:#3x} len:{:#4x}"`. -/
def packetDisplay (p : Packet) : Option String :=
  match p.mt, p.gid, p.oid, p.len with
  | some m, some g, some o, some l =>
      some ("mt:" ++ hexPad 3 m ++ " gid:" ++ hexPad 3 g ++
            " oid:" ++ hexPad 3 o ++ " len:" ++ hexPad 4 l)
  | _, _, _, _ => none

/- Hex-string parsing (`parse_hexstr` inside `to_packet`). -/

/-- Value of a single hex digit, as accepted by `u8::from_str_radix(_, 16)`. -/
def hexDigitVal (c : Char) : Option Nat :=
  if '0' ≤ c ∧ c ≤ '9' then some (c.toNat - 48)
  else if 'a' ≤ c ∧ c ≤ 'f' then some (c.toNat - 87)
  else if 'A' ≤ c ∧ c ≤ 'F' then some (c.toNat - 55)
  else none

/-- `u8::from_str_radix` applied to a two-character slice: an optional
leading sign followed by hex digits (a lone `-d` overflows `u8`
unless the value is zero). -/
def from_str_radix2 (c0 c1 : Char) : Option Nat :=
  match hexDigitVal c0, hexDigitVal c1 with
  | some d0, some d1 => some (16 * d0 + d1)
  | _, _ =>
    if c0 = '+' then hexDigitVal c1
    else if c0 = '-' then
      (hexDigitVal c1).bind (fun d => if d = 0 then some 0 else none)
    else none

/-- Rust `collect::<Result<Vec<_>,_>>()`: first failure wins. -/
def collectResults : List (Option Nat) → Option (List Nat)
  | [] => some []
  | o :: rest =>
    match o with
    | none => none
    | some x =>
      match collectResults rest with
      | none => none
      | some xs => some (x :: xs)

/-- The pair of characters starting at byte index `2*k`. -/
def hexPairAt (s : List Char) (k : Nat) : Option Nat :=
  match s.get? (2 * k), s.get? (2 * k + 1) with
  | some c0, some c1 => from_str_radix2 c0 c1
  | _, _ => none

/-- `parse_hexstr`: drop a trailing unpaired character, then convert each
two-character pair; `none` is the `ParseIntError` case. -/
def parse_hexstr (s : List Char) : Option (List Nat) :=
  let n := if s.length % 2 == 1 then s.length - 1 else s.length
  collectResults ((List.range (n / 2)).map (hexPairAt s))

/-- The byte-sequence stage of `to_packet`: header-length validation. -/
def toPacketBytes (bytes : List Nat) : Except String Packet :=
  if bytes.length < 4 then
    .error "packet length is less than 4 bytes"
  else
    let packet_len := bytes.getD 3 0
    if bytes.length - 4 ≠ packet_len then
      .error ("payload length mismatch: packet_len=" ++ toString packet_len ++
              " actual=" ++ toString (bytes.length - 4))
    else
      .ok ⟨bytes⟩

/-- `to_packet`: hex parsing followed by header validation. -/
def to_packet (s : List Char) : Except String Packet :=
  match parse_hexstr s with
  | none => .error "Failed to parse hex string"
  | some bytes => toPacketBytes bytes

/- Field schema (`ParamType` and `Field`). -/

/-- `ParamType` from `uci.rs`.  `HexArray` carries an `i16` (hence `Int`),
`CharArray` a `u16`, `Q16` and `RFU` a `usize`. -/
inductive ParamType where
  | Hex8 | Hex16 | Hex32
  | Dec8 | Dec16 | Dec32
  | Q16 : Nat → ParamType
  | RFU : Nat → ParamType
  | HexArray : Int → ParamType
  | CharArray : Nat → ParamType
  | Table8 : List (Nat × String) → ParamType
  | Map8 : List (Nat × String) → ParamType
deriving DecidableEq

/-- `Field(name, param_type)`. -/
structure Field where
  name : String
  ptype : ParamType
deriving DecidableEq

/-- Whether the parameter type is `RFU(_)` (reserved). -/
def ParamType.isRFU : ParamType → Bool
  | .RFU _ => true
  | _ => false

/-- `Field::size`.  The `HexArray` case is the Rust `x as usize` cast of an
`i16`, i.e. the value modulo `2^64`. -/
def Field.size (f : Field) : Nat :=
  match f.ptype with
  | .Hex8 | .Dec8 => 1
  | .Hex16 | .Dec16 => 2
  | .Hex32 | .Dec32 => 4
  | .Q16 _ => 2
  | .RFU n => n
  | .HexArray x => (x.emod (2 ^ 64)).toNat
  | .CharArray x => x
  | .Table8 _ => 1
  | .Map8 _ => 1

/-- `Field::length_compatible`. -/
def Field.length_compatible (f : Field) (len : Nat) : Bool :=
  match f.size with
  | 0 => true
  | x => x == len

/- UTF-8 lossy decoding (`String::from_utf8_lossy`), substituting U+FFFD
for each maximal invalid subpart. -/

/-- Whether a byte is a UTF-8 continuation byte. -/
def isCont (b : Nat) : Bool :=
  0x80 ≤ b && b ≤ 0xbf

/-- The replacement character U+FFFD. -/
def replChar : Char := Char.ofNat 0xFFFD

/-- Decode one scalar value (or one maximal invalid subpart) starting at
byte `b`; returns the decoded character and the unconsumed rest. -/
def utf8DecodeOne (b : Nat) (rest : List Nat) : Char × List Nat :=
  if b < 0x80 then
    (Char.ofNat b, rest)
  else if b < 0xc2 then
    (replChar, rest)
  else if b ≤ 0xdf then
    match rest with
    | c1 :: r1 =>
      if isCont c1 then (Char.ofNat ((b - 0xc0) * 64 + (c1 - 0x80)), r1)
      else (replChar, c1 :: r1)
    | [] => (replChar, [])
  else if b ≤ 0xef then
    match rest with
    | c1 :: r1 =>
      if (if b == 0xe0 then 0xa0 else 0x80) ≤ c1 ∧
         c1 ≤ (if b == 0xed then 0x9f else 0xbf) then
        match r1 with
        | c2 :: r2 =>
          if isCont c2 then
            (Char.ofNat ((b - 0xe0) * 4096 + (c1 - 0x80) * 64 + (c2 - 0x80)), r2)
          else (replChar, c2 :: r2)
        | [] => (replChar, [])
      else (replChar, c1 :: r1)
    | [] => (replChar, [])
  else if b ≤ 0xf4 then
    match rest with
    | c1 :: r1 =>
      if (if b == 0xf0 then 0x90 else 0x80) ≤ c1 ∧
         c1 ≤ (if b == 0xf4 then 0x8f else 0xbf) then
        match r1 with
        | c2 :: r2 =>
          if isCont c2 then
            match r2 with
            | c3 :: r3 =>
              if isCont c3 then
                (Char.ofNat ((b - 0xf0) * 262144 + (c1 - 0x80) * 4096 +
                             (c2 - 0x80) * 64 + (c3 - 0x80)), r3)
              else (replChar, c3 :: r3)
            | [] => (replChar, [])
          else (replChar, c2 :: r2)
        | [] => (replChar, [])
      else (replChar, c1 :: r1)
    | [] => (replChar, [])
  else
    (replChar, rest)

/-- Fueled decoding loop; each step consumes at least one byte, so fuel
equal to the byte count suffices. -/
def utf8LossyAux : Nat → List Nat → List Char
  | 0, _ => []
  | _ + 1, [] => []
  | fuel + 1, b :: rest =>
    let s := utf8DecodeOne b rest
    s.1 :: utf8LossyAux fuel s.2

/-- `String::from_utf8_lossy`. -/
def from_utf8_lossy (bs : List Nat) : String :=
  ⟨utf8LossyAux bs.length bs⟩

/- Lookup tables (built once by `lazy_static`, never mutated).
`HashMap`s become association lists; all keys are distinct, so
`List.lookup` gives the same answer as the hash-map lookup. -/

/-- `STATUS_CODES`. -/
def STATUS_CODES : List (Nat × String) :=
  [ (0x00, "OK"),
    (0x01, "REJECTED"),
    (0x02, "FAILED"),
    (0x03, "SYNTAX_ERROR"),
    (0x04, "INVALID_PARAM"),
    (0x05, "INVALID_RANGE"),
    (0x06, "INVALID_MESSAGE_SIZE"),
    (0x07, "UNKNOWN_GID"),
    (0x08, "UNKNOWN_OID"),
    (0x09, "READ_ONLY"),
    (0x0A, "COMMAND_RETRY"),
    (0x11, "ERROR_SESSION_NOT_EXIST"),
    (0x12, "ERROR_SESSION_DUPLICATE"),
    (0x13, "ERROR_SESSION_ACTIVE"),
    (0x14, "ERROR_MAX_SESSIONS_EXCEEDED"),
    (0x15, "ERROR_SESSION_NOT_CONFIGURED"),
    (0x16, "ERROR_ACTIVE_SESSIONS_ONGOING"),
    (0x17, "ERROR_MULTICAST_LIST_FULL"),
    (0x18, "ERROR_ADDRESS_NOT_FOUND"),
    (0x19, "ERROR_ADDRESS_ALREADY_PRESENT"),
    (0x20, "RANGING_TX_FAILED"),
    (0x21, "RANGING_RX_TIMEOUT"),
    (0x22, "RANGING_RX_PHY_DEC_FAILED"),
    (0x23, "RANGING_RX_PHY_TOA_FAILED"),
    (0x24, "RANGING_RX_PHY_STS_FAILED"),
    (0x25, "RANGING_RX_MAC_DEC_FAILED"),
    (0x26, "RANGING_RX_MAC_IE_DEC_FAILED"),
    (0x27, "RANGING_RX_MAC_IE_MISSING"),
    (0x50, "BINDING_SUCCESS"),
    (0x51, "BINDING_FAILURE"),
    (0x52, "BINDING_LIMIT_REACHED"),
    (0x53, "CALIBRATION_IN_PROGRESS"),
    (0x54, "DEVICE_TEMP_REACHED_THERMAL_RUNAWAY"),
    (0x55, "FEATURE_NOT_SUPPORTED"),
    (0x56, "NUM_PACKET_EXCEEDS_1000_FOR_TEST_PER_RX"),
    (0x57, "CAILBRATION_NOT_CONFIGURED"),
    (0x70, "NO_SE"),
    (0x72, "SE_RECOVERY_FAILURE"),
    (0x73, "SE_RECOVERY_SUCCESS"),
    (0x74, "SE_APDU_CMD_FAIL"),
    (0x75, "SE_AUTH_FAIL"),
    (0x81, "RANGING_PHY_RX_SECDEC_FAILED"),
    (0x82, "RANGING_PHY_RX_RSDEC_FAILED"),
    (0x83, "RANGING_PHY_RX_DEC_FAILED"),
    (0x84, "RANGING_PHY_RX_ERR_FAILED"),
    (0x85, "RANGING_PHY_RX_PHR_DECODE_FAILED"),
    (0x86, "RANGING_PHY_RX_SYNC_SFD_TIMEOUT"),
    (0x87, "RANGING_PHY_RX_PHR_DATA_RATE_ERROR"),
    (0x88, "RANGING_PHY_RX_PHR_RANGING_ERROR"),
    (0x89, "RANGING_PHY_RX_PHR_PREAMBLE_DUR_ERROR"),
    (0x8a, "MAX_ACTIVE_GRANT_DURATION_EXCEEDED"),
    (0x8b, "RANGING_SUSPENDED"),
    (0x90, "DATA_TRANSFER_ERROR"),
    (0x91, "DATA_NO_CREDIT_AVAILABLE"),
    (0x92, "DATA_TRANSFER_STOPPED"),
    (0xa0, "COEX_WLAN_UART_RSP_TIMEOUT_OR_INVALID"),
    (0xa1, "COEX_WLAN_UART_RSP_INVALID") ]

/-- `DEVICE_STATUS_CODES`. -/
def DEVICE_STATUS_CODES : List (Nat × String) :=
  [ (0x01, "DEVICE_STATE_READY"),
    (0x02, "DEVICE_STATE_ACTIVE"),
    (0xff, "DEVICE_STATE_ERROR") ]

/-- `DEVICE_CONF_PARAMS`. -/
def DEVICE_CONF_PARAMS : List (Nat × Field) :=
  [ (0x00, ⟨"DEVICE_STATE", .Hex8⟩),
    (0x01, ⟨"LOW_POWER_MODE", .Hex8⟩) ]

/-- `DEVICE_CONF_PARAMS_NXP` (extended TLV table, keyed by `(id0, id1)`). -/
def DEVICE_CONF_PARAMS_NXP : List ((Nat × Nat) × Field) :=
  [ ((0xe4, 0x02), ⟨"DPD_WAKEUP_SRC", .Hex8⟩),
    ((0xe4, 0x03), ⟨"WTX_COUNT_CONFIG", .Dec8⟩),
    ((0xe4, 0x04), ⟨"DPD_ENTRY_TIMEOUT", .Dec16⟩),
    ((0xe4, 0x05), ⟨"WIFI_COEX_FEATURE", .HexArray 4⟩),
    ((0xe4, 0x26), ⟨"TX_BASE_BAND_CONFIG", .Hex8⟩),
    ((0xe4, 0x27), ⟨"DDFS_TONE_CONFIG", .HexArray 72⟩),
    ((0xe4, 0x28), ⟨"TX_PULSE_SHAPE_CONFIG", .HexArray 3⟩),
    ((0xe4, 0x30), ⟨"CLK_CONFIG_CTRL", .HexArray 2⟩),
    ((0xe4, 0x33), ⟨"NXP_EXTENDED_NTF_CONFIG", .Dec8⟩),
    ((0xe4, 0x34), ⟨"CLOCK_PRESENT_WAITING_TIME", .Dec16⟩),
    ((0xe4, 0x60), ⟨"ANTENNA_RX_IDX_DEFINE", .HexArray 0⟩),
    ((0xe4, 0x61), ⟨"ANTENNA_TX_IDX_DEFINE", .HexArray 0⟩),
    ((0xe4, 0x62), ⟨"ANTENNAS_RX_PAIR_DEFINE", .HexArray 0⟩) ]

/-- `APP_CONF_PARAMS`. -/
def APP_CONF_PARAMS : List (Nat × Field) :=
  [ (0x00, ⟨"DEVICE_TYPE", .Table8 [(0, "Controlee"), (1, "Controller")]⟩),
    (0x01, ⟨"RANGING_ROUND_USAGE", .Table8 [
        (0, "TDoA"),
        (1, "SS-TWR"), (2, "DS-TWR"),
        (3, "SS-TWR non-deferred"), (4, "DS-TWR non-deferred"),
        (5, "Downlink TDOA") ]⟩),
    (0x02, ⟨"STS_CONFIG", .Table8 [
        (0, "Static STS"), (1, "Dynamic STS"),
        (2, "Dynamic STS with sub-session key") ]⟩),
    (0x03, ⟨"MULTI_NODE_MODE", .Hex8⟩),
    (0x04, ⟨"CHANNEL_NUMBER", .Hex8⟩),
    (0x05, ⟨"NUMBER_OF_CONTROLEES", .Dec8⟩),
    (0x06, ⟨"DEVICE_MAC_ADDRESS", .Hex16⟩),
    (0x07, ⟨"DST_MAC_ADDRESS", .Hex16⟩),
    (0x08, ⟨"SLOT_DURATION", .Dec16⟩),
    (0x09, ⟨"RANGING_INTERVAL", .Dec32⟩),
    (0x0A, ⟨"STS_INDEX", .Hex32⟩),
    (0x0B, ⟨"MAC_FCS_TYPE", .Hex8⟩),
    (0x0C, ⟨"RANGING_ROUND_CONTROL", .Hex8⟩),
    (0x0D, ⟨"AOA_RESULT_REQ", .Hex8⟩),
    (0x0E, ⟨"RANGE_DATA_NTF_CONFIG", .Hex8⟩),
    (0x0F, ⟨"RANGE_DATA_NTF_PROXIMITY_NEAR", .Dec16⟩),
    (0x10, ⟨"RANGE_DATA_NTF_PROXIMITY_FAR", .Dec16⟩),
    (0x11, ⟨"DEVICE_ROLE", .Table8 [
        (0, "Responder"), (1, "Initiator"),
        (2, "Master Anchor"), (3, "Initiator & Responder"),
        (4, "Receiver") ]⟩),
    (0x12, ⟨"RFRAME_CONFIG", .Hex8⟩),
    (0x14, ⟨"PREAMBLE_CODE_INDEX", .Hex8⟩),
    (0x15, ⟨"SFD_ID", .Hex8⟩),
    (0x16, ⟨"PSDU_DATA_RATE", .Hex8⟩),
    (0x17, ⟨"PREAMBLE_DURATION", .Hex8⟩),
    (0x1A, ⟨"RANGING_TIME_STRUCT", .Hex8⟩),
    (0x1B, ⟨"SLOTS_PER_RR", .Hex8⟩),
    (0x1C, ⟨"TX_ADAPTIVE_PAYLOAD_POWER", .Hex8⟩),
    (0x1E, ⟨"RESPONDER_SLOT_INDEX", .Hex8⟩),
    (0x1F, ⟨"PRF_MODE", .Hex8⟩),
    (0x22, ⟨"SCHEDULED_MODE", .Hex8⟩),
    (0x23, ⟨"KEY_ROTATION", .Hex8⟩),
    (0x24, ⟨"KEY_ROTATION_RATE", .Hex8⟩),
    (0x25, ⟨"SESSION_PRIORITY", .Dec8⟩),
    (0x26, ⟨"MAC_ADDRESS_MODE", .Hex8⟩),
    (0x27, ⟨"VENDOR_ID", .HexArray 2⟩),
    (0x28, ⟨"STATIC_STS_IV", .HexArray 6⟩),
    (0x29, ⟨"NUMBER_OF_STS_SEGMENTS", .Dec8⟩),
    (0x2A, ⟨"MAX_RR_RETRY", .Dec16⟩),
    (0x2B, ⟨"UWB_INITIATION_TIME", .Dec32⟩),
    (0x2C, ⟨"HOPPING_MODE", .Hex8⟩),
    (0x2D, ⟨"BLOCK_STRIDE_LENGTH", .Dec8⟩),
    (0x2E, ⟨"RESULT_REPORT_CONFIG", .Hex8⟩),
    (0x2F, ⟨"IN_BAND_TERMINATION_ATTEMPT_COUNT", .Hex8⟩),
    (0x30, ⟨"SUB_SESSION_ID", .Hex32⟩),
    (0x31, ⟨"BPRF_PHR_DATA_RATE", .Hex8⟩),
    (0x32, ⟨"MAX_NUMBER_OF_MEASUREMENTS", .Dec16⟩),
    (0x33, ⟨"BLINK_RANDOM_INTERVAL", .Dec16⟩),
    (0x34, ⟨"TDOA_REPORT_FREQUENCY", .Dec16⟩),
    (0x35, ⟨"STS_LENGTH", .Dec8⟩) ]

/-- `SESSION_STATE_CODES`. -/
def SESSION_STATE_CODES : List (Nat × String) :=
  [ (0x00, "SESSION_STATE_INIT"),
    (0x01, "SESSION_STATE_DEINIT"),
    (0x02, "SESSION_STATE_ACTIVE"),
    (0x03, "SESSION_STATE_IDLE") ]

/-- `DEVCAL_PARAMS_NXP`. -/
def DEVCAL_PARAMS_NXP : List (Nat × Field) :=
  [ (0x00, ⟨"VCO_PLL", .HexArray 2⟩),
    (0x01, ⟨"TX_POWER", .HexArray 0⟩),
    (0x02, ⟨"38.4MHz_XTAL_CAP_GM_CTRL", .HexArray 3⟩),
    (0x03, ⟨"RSSI_CALIB_CONSTANT1", .HexArray 0⟩),
    (0x04, ⟨"RSSI_CALIB_CONSTANT2", .HexArray 0⟩),
    (0x05, ⟨"SNR_CALIB_CONSTANT", .HexArray 0⟩),
    (0x06, ⟨"MANUAL_TX_POW_CTRL", .HexArray 4⟩),
    (0x07, ⟨"PDOA1_OFFSET", .HexArray 0⟩),
    (0x08, ⟨"PA_PPA_CALIB_CTRL", .HexArray 2⟩),
    (0x09, ⟨"TX_TEMPERATURE_COMP", .HexArray 0⟩),
    (0x0A, ⟨"PDOA2_OFFSET", .HexArray 0⟩),
    (0x0B, ⟨"AOA_MULTIPOINT_PDOA_CALIB", .HexArray 0⟩),
    (0x0C, ⟨"AOA_MULTIPOINT_PDOA_CALIB", .HexArray 0⟩),
    (0x0D, ⟨"AOA_ANTENNAS_MULTIPOINT_CALIB", .HexArray 0⟩),
    (0x0F, ⟨"RX_ANT_DELAY_CALIB", .HexArray 0⟩),
    (0x10, ⟨"PDOA_OFFSET_CALIB", .HexArray 0⟩),
    (0x11, ⟨"PDOA_MANUFACT_ZERO_OFFSET_CALIB", .HexArray 0⟩),
    (0x12, ⟨"AOA_THRESHOLD_PDOA", .HexArray 0⟩),
    (0x13, ⟨"RSSI_CALIB_CONSTANT_HIGH_PWR", .HexArray 0⟩),
    (0x14, ⟨"RSSI_CALIB_CONSTANT_LOW_PWR", .HexArray 0⟩),
    (0x15, ⟨"SNR_CALIB_CONSTANT_PER_ANTENNA", .HexArray 0⟩),
    (0x17, ⟨"TX_POWER_PER_ANTENNA", .HexArray 0⟩),
    (0x18, ⟨"TX_TEMPERATURE_COMP_PER_ANTENNA", .HexArray 0⟩) ]

/- Printer output and decode outcome. -/

/-- One call on the `Printer` trait: `print_id`, `print_comment`, or
`print_param name val`. -/
inductive OutItem where
  | id : String → OutItem
  | comment : String → OutItem
  | param : String → String → OutItem
deriving DecidableEq

/-- The outcome of a decoding routine: `Ok(())`, an
`UciPacketParseError` with its message, or an out-of-bounds panic. -/
inductive Status where
  | ok : Status
  | err : String → Status
  | panic : Status
deriving DecidableEq

/-- `print_hexarr`: fold `" 0xNN"` for each payload byte in
`[offset, offset+len)` between braces; `none` models the panic when a
byte is out of range. -/
def print_hexarr (pkt : Packet) (offset len : Nat) : Option String :=
  ((List.range len).foldl
    (fun acc i =>
      match acc with
      | none => none
      | some s =>
        match pkt.get (offset + i) with
        | none => none
        | some b => some (s ++ " " ++ hex2 b))
    (some "\x7b")).map (fun s => s ++ " \x7d")

/-- Little-endian `read_u16` on a 2-byte slice. -/
def readU16 (l : List Nat) : Nat :=
  l.getD 0 0 + 256 * l.getD 1 0

/-- Little-endian `read_u32` on a 4-byte slice. -/
def readU32 (l : List Nat) : Nat :=
  l.getD 0 0 + 256 * l.getD 1 0 + 65536 * l.getD 2 0 + 16777216 * l.getD 3 0

/-- The `printf!` macro body of `print_field`: read 1, 2, or 4 bytes
little-endian depending on `len`. -/
def printfVal (pkt : Packet) (offset len : Nat) : Option Nat :=
  if len == 1 then pkt.get offset
  else if len == 2 then (pkt.slice offset 2).map readU16
  else (pkt.slice offset 4).map readU32

/-- Result of `print_field` when it does not panic: `skip` is the Rust
`None` (reserved field, nothing to print), `val s` is `Some(s)`. -/
inductive FieldOut where
  | skip : FieldOut
  | val : String → FieldOut
deriving DecidableEq

/-- The `Table8` rendering: first match in the ordered list wins;
`{:#04x} ({})` on a hit, `{:#04x}(Unknown)` (no space) on a miss. -/
def table8Render (t : List (Nat × String)) (b : Nat) : String :=
  match List.lookup b t with
  | some lbl => hex2 b ++ " (" ++ lbl ++ ")"
  | none => hex2 b ++ "(Unknown)"

/-- `print_field`: the field interpreter.  Outer `none` models a panic;
the `CharArray` branch reads `pkt.bytes[offset..offset+len]` directly
(header-relative, no `+4`), exactly as the source does. -/
def print_field (field : Field) (pkt : Packet) (offset len : Nat) :
    Option FieldOut :=
  if field.ptype.isRFU then some .skip
  else if !(field.length_compatible len) then
    some (.val ("length mismatch expected=" ++ toString field.size ++
                ", actual=" ++ toString len))
  else
    match field.ptype with
    | .Hex8 | .Hex16 | .Hex32 =>
      (printfVal pkt offset len).map (fun v => .val ("0x" ++ hexMin v))
    | .Dec8 | .Dec16 | .Dec32 =>
      (printfVal pkt offset len).map (fun v => .val (toString v))
    | .CharArray _ =>
      (pkt.rawSlice offset len).map (fun bs => .val (from_utf8_lossy bs))
    | .Table8 t =>
      (pkt.get offset).map (fun b => .val (table8Render t b))
    | .Map8 t =>
      (pkt.get offset).map (fun b => .val (table8Render t b))
    | _ =>
      (print_hexarr pkt offset len).map .val

/-- `_print_static`: the static decoder loop.  Returns the emitted
items, the outcome, and the final offset (the Rust `&mut usize`). -/
def _print_static (pkt : Packet) : List Field → Nat →
    List OutItem × Status × Nat
  | [], offset => ([], .ok, offset)
  | f :: fs, offset =>
    match pkt.len with
    | none => ([], .panic, offset)
    | some plen =>
      let len := f.size
      if offset + len > plen then
        ([], .err "length mismatch", offset)
      else
        match print_field f pkt offset len with
        | none => ([], .panic, offset)
        | some .skip => _print_static pkt fs (offset + len)
        | some (.val v) =>
          let r := _print_static pkt fs (offset + len)
          (OutItem.param f.name v :: r.1, r.2)

/-- `print_static`: run the static decoder from offset 0. -/
def print_static (pkt : Packet) (fields : List Field) :
    List OutItem × Status :=
  let r := _print_static pkt fields 0
  (r.1, r.2.1)

/-- The branch condition of the TLV decoder: the Rust code takes the
standard 2-byte path when `b0 < 0xe0 || offset + 3 > pkt.len() ||
ext_table == None`, and the extended 3-byte path otherwise. -/
def useExtended (b0 offset plen : Nat) (hasExt : Bool) : Bool :=
  if b0 < 0xe0 ∨ offset + 3 > plen ∨ hasExt = false then false else true

/-- One TLV entry name on a table hit, `{}({:#04x})`. -/
def tlvHitName (f : Field) (b0 : Nat) : String :=
  f.name ++ "(" ++ hex2 b0 ++ ")"

/-- One extended-TLV entry name on a table hit, `{}({:#04x}:{:#04x})`. -/
def tlvExtHitName (f : Field) (b0 b1 : Nat) : String :=
  f.name ++ "(" ++ hex2 b0 ++ ":" ++ hex2 b1 ++ ")"

/-- The `Unknown({:#04x} {:#04x})` entry name. -/
def tlvUnknownName (b0 b1 : Nat) : String :=
  "Unknown(" ++ hex2 b0 ++ " " ++ hex2 b1 ++ ")"

/-- The `while n < num` loop of `print_config`; recursion on the number
of entries still to read. -/
def print_config_loop (pkt : Packet) (table : List (Nat × Field))
    (ext_table : Option (List ((Nat × Nat) × Field))) (plen : Nat) :
    Nat → Nat → List OutItem × Status
  | 0, _ => ([], .ok)
  | k + 1, offset =>
    if offset + 2 > plen then
      ([OutItem.param "RESIDUE" "parse error"], .ok)
    else
      match pkt.get offset, pkt.get (offset + 1) with
      | some b0, some b1 =>
        if useExtended b0 offset plen ext_table.isSome then
          /- NXP extended TLV: id0 + id1 + len + value -/
          match pkt.get (offset + 2) with
          | none => ([], .panic)
          | some len =>
            match ext_table with
            | none => ([], .panic)
            | some et =>
              match List.lookup (b0, b1) et with
              | some field =>
                match print_field field pkt (offset + 3) len with
                | none => ([], .panic)
                | some fo =>
                  let v := match fo with | .skip => "BUG" | .val s => s
                  let r := print_config_loop pkt table ext_table plen k
                             (offset + 3 + len)
                  (OutItem.param (tlvExtHitName field b0 b1) v :: r.1, r.2)
              | none =>
                match print_hexarr pkt (offset + 3) len with
                | none => ([], .panic)
                | some dump =>
                  let r := print_config_loop pkt table ext_table plen k
                             (offset + 3 + len)
                  (OutItem.param (tlvUnknownName b0 b1) dump :: r.1, r.2)
        else
          /- standard TLV -/
          let len := b1
          match List.lookup b0 table with
          | some field =>
            match print_field field pkt (offset + 2) len with
            | none => ([], .panic)
            | some fo =>
              let v := match fo with | .skip => "BUG" | .val s => s
              let r := print_config_loop pkt table ext_table plen k
                         (offset + 2 + len)
              (OutItem.param (tlvHitName field b0) v :: r.1, r.2)
          | none =>
            match print_hexarr pkt (offset + 2) len with
            | none => ([], .panic)
            | some dump =>
              let r := print_config_loop pkt table ext_table plen k
                         (offset + 2 + len)
              (OutItem.param (tlvUnknownName b0 b1) dump :: r.1, r.2)
      | _, _ => ([], .panic)

/-- `print_config`: the TLV / extended-TLV decoder. -/
def print_config (pkt : Packet) (off : Nat) (table : List (Nat × Field))
    (ext_table : Option (List ((Nat × Nat) × Field))) :
    List OutItem × Status :=
  match pkt.len with
  | none => ([], .panic)
  | some plen =>
    if plen < 5 then ([], .err "payload len is zero")
    else
      match pkt.get off with
      | none => ([], .panic)
      | some num =>
        let r := print_config_loop pkt table ext_table plen num (off + 1)
        (OutItem.param "Number of parameters" (toString num) :: r.1, r.2)

/- Range-data helper types (`mod range_data`). -/

/-- `range_data::MacType`. -/
inductive MacType where
  | Short | Long | Unknown
deriving DecidableEq

/-- `From<u8> for MacType` (note: 2 maps to `Short`, 1 to `Long`). -/
def macTypeFrom (v : Nat) : MacType :=
  if v = 2 then .Short else if v = 1 then .Long else .Unknown

/-- `range_data::ReportType`. -/
inductive ReportType where
  | Tdoa | Twr | DownTdoa | Unknown
deriving DecidableEq

/-- `From<u8> for ReportType`. -/
def reportTypeFrom (v : Nat) : ReportType :=
  if v = 0 then .Tdoa else if v = 1 then .Twr
  else if v = 2 then .DownTdoa else .Unknown

/-- `report_type as u8` (discriminant values). -/
def reportTypeU8 : ReportType → Nat
  | .Tdoa => 0
  | .Twr => 1
  | .DownTdoa => 2
  | .Unknown => 3

/-- The per-measurement field list of `print_range_data_twr`. -/
def twrFields (mac_type : MacType) : List Field :=
  [ ⟨"Mac Address", match mac_type with
                    | .Short => .Hex8
                    | _ => .HexArray 8⟩,
    ⟨"Status", .Map8 STATUS_CODES⟩,
    ⟨"NLoS", .Table8 [(0, "LoS"), (1, "NLoS")]⟩,
    ⟨"Distance", .Dec16⟩,
    ⟨"AoA Azimuth", .Q16 7⟩,
    ⟨"AoA Azimuth FOM", .Dec8⟩,
    ⟨"AoA Elevation", .Q16 7⟩,
    ⟨"AoA Elevation FOM", .Dec8⟩,
    ⟨"AoA Destination Azimuth", .Q16 7⟩,
    ⟨"AoA Destination Azimuth FOMR", .Dec8⟩,
    ⟨"AoA Destination Elevation", .Q16 7⟩,
    ⟨"AoA Destination Elevation FOMR", .Dec8⟩,
    ⟨"Slot Index", .Dec8⟩ ]

/-- `print_range_data_twr`: one TWR measurement via the static decoder. -/
def print_range_data_twr (pkt : Packet) (offset : Nat)
    (mac_type : MacType) : List OutItem × Status × Nat :=
  _print_static pkt (twrFields mac_type) offset

/- The dispatch registry (`PACKETS`) and its decoding strategies. -/

/-- `print_status_only`. -/
def print_status_only (pkt : Packet) : List OutItem × Status :=
  print_static pkt [⟨"STATUS", .Map8 STATUS_CODES⟩]

/-- The `CORE_DEVICE_STATUS` NTF strategy. -/
def core_device_status_ntf (pkt : Packet) : List OutItem × Status :=
  print_static pkt [⟨"STATUS", .Map8 DEVICE_STATUS_CODES⟩]

/-- The `CORE_SET_CONFIG` CMD strategy. -/
def core_set_config_cmd (pkt : Packet) : List OutItem × Status :=
  print_config pkt 0 DEVICE_CONF_PARAMS (some DEVICE_CONF_PARAMS_NXP)

/-- The `SESSION_INIT` CMD strategy. -/
def session_init_cmd (pkt : Packet) : List OutItem × Status :=
  print_static pkt [⟨"SESSION_ID", .Hex32⟩, ⟨"SESSION_TYPE", .Hex8⟩]

/-- The `SESSION_STATUS` NTF strategy. -/
def session_status_ntf (pkt : Packet) : List OutItem × Status :=
  print_static pkt
    [ ⟨"SESSION_ID", .Hex32⟩,
      ⟨"SESSION_STATE", .Map8 SESSION_STATE_CODES⟩,
      ⟨"REASON_CODE", .Hex8⟩ ]

/-- Sequencing of two decode steps (`?` in Rust): the second runs only
if the first succeeded; emissions accumulate. -/
def andThenDecode (r1 : List OutItem × Status)
    (r2 : Unit → List OutItem × Status) : List OutItem × Status :=
  match r1.2 with
  | .ok => ((r2 ()).1 |> (r1.1 ++ ·), (r2 ()).2)
  | s => (r1.1, s)

/-- The `SESSION_SET_APP_CONFIG` CMD strategy. -/
def session_set_app_config_cmd (pkt : Packet) : List OutItem × Status :=
  andThenDecode (print_static pkt [⟨"SESSION_ID", .Hex32⟩])
    (fun _ => print_config pkt 4 APP_CONF_PARAMS none)

/-- The `NXP_CORE_DEVICE_INIT` CMD strategy. -/
def nxp_core_device_init_cmd (pkt : Packet) : List OutItem × Status :=
  print_static pkt [⟨"MAJOR_VER", .Hex8⟩, ⟨"MINOR_VER", .Hex8⟩]

/-- Rust `{:#4x}` formatting used in the calibration `Unknown` label. -/
def hex4sp (n : Nat) : String :=
  hexPad 4 n

/-- The `NXP_SET_CALIBRATION` CMD strategy (bespoke layout:
channel byte, calibration id, value bytes). -/
def nxp_set_calibration_cmd (pkt : Packet) : List OutItem × Status :=
  match pkt.len with
  | none => ([], .panic)
  | some plen =>
    if plen < 3 then ([], .err "payload len mismatch")
    else
      match pkt.get 0 with
      | none => ([], .panic)
      | some ch =>
        let item1 := OutItem.param "Channel" (toString ch)
        match pkt.get 1 with
        | none => ([item1], .panic)
        | some id =>
          match List.lookup id DEVCAL_PARAMS_NXP with
          | some field =>
            match print_field field pkt 2 (plen - 2) with
            | none => ([item1], .panic)
            | some fo =>
              let v := match fo with | .skip => "BUG" | .val s => s
              ([item1, OutItem.param (tlvHitName field id) v], .ok)
          | none =>
            match print_hexarr pkt 2 (plen - 2) with
            | none => ([item1], .panic)
            | some dump =>
              ([item1, OutItem.param (hex4sp id ++ ":Unknown") dump], .ok)

/-- The `NXP_SE_COMM_ERROR` NTF strategy. -/
def nxp_se_comm_error_ntf (pkt : Packet) : List OutItem × Status :=
  print_static pkt
    [ ⟨"STATUS", .Map8 STATUS_CODES⟩,
      ⟨"CLA_INS", .Hex16⟩,
      ⟨"T=1_STATUS_CODE", .Hex16⟩ ]

/-- The `NXP_BINDING_STAT` NTF strategy. -/
def nxp_binding_stat_ntf (pkt : Packet) : List OutItem × Status :=
  print_static pkt
    [ ⟨"STATUS", .Table8 [(0, "Not bound"), (1, "Bound,unlocked"),
                          (2, "Bound,locked"), (3, "Unknown")]⟩,
      ⟨"SE binding count", .Dec8⟩,
      ⟨"UWBS binding count", .Dec8⟩ ]

/-- The `RANGE_START` CMD strategy. -/
def range_start_cmd (pkt : Packet) : List OutItem × Status :=
  print_static pkt [⟨"SESSION_ID", .Hex32⟩]

/-- The fixed header field list of the `RANGE_DATA` NTF strategy. -/
def rangeDataHeaderFields : List Field :=
  [ ⟨"Sequence number", .Dec32⟩,
    ⟨"Session ID", .Hex32⟩,
    ⟨"", .RFU 1⟩,
    ⟨"Ranging interval", .Dec32⟩,
    ⟨"Ranging type", .Table8 [(0, "TDoA"), (1, "TWR"), (2, "Down TDoA")]⟩,
    ⟨"", .RFU 1⟩,
    ⟨"Mac addressing mode", .Table8 [(0, "short"), (1, "long")]⟩,
    ⟨"", .RFU 8⟩,
    ⟨"Number of Ranging Measurements", .Dec8⟩ ]

/-- The `for i in 0..nr` measurement loop of the `RANGE_DATA` NTF
strategy; the offset is threaded through the TWR sub-decoder. -/
def range_data_reports (pkt : Packet) (mac : MacType) (rt : ReportType) :
    Nat → Nat → Nat → List OutItem × Status
  | 0, _, _ => ([], .ok)
  | k + 1, i, offset =>
    let head := OutItem.comment ("Report " ++ toString i)
    match rt with
    | .Twr =>
      let r := print_range_data_twr pkt offset mac
      match r.2.1 with
      | .ok =>
        let rest := range_data_reports pkt mac rt k (i + 1) r.2.2
        (head :: r.1 ++ rest.1, rest.2)
      | s => (head :: r.1, s)
    | _ =>
      ([head], .err ("unsupported measurement type " ++
                     toString (reportTypeU8 rt)))

/-- The `RANGE_DATA` NTF strategy. -/
def range_data_ntf (pkt : Packet) : List OutItem × Status :=
  match pkt.len with
  | none => ([], .panic)
  | some len =>
    if len < 25 then ([], .err "mismatch length")
    else
      match pkt.get 24, pkt.get 16, pkt.get 13 with
      | some nr, some mb, some rb =>
        andThenDecode (print_static pkt rangeDataHeaderFields)
          (fun _ =>
            range_data_reports pkt (macTypeFrom mb) (reportTypeFrom rb)
              nr 0 24)
      | _, _, _ => ([], .panic)

/-- A registry entry: display name plus decoding strategy. -/
structure PacketDesc where
  name : String
  print : Packet → List OutItem × Status

/-- The `PACKETS` registry, keyed by `(gid, oid, mt)`. -/
def PACKETS : List ((Nat × Nat × Nat) × PacketDesc) :=
  [ ((0x00, 0x00, 2), ⟨"CORE_DEVICE_RESET_RSP", print_status_only⟩),
    ((0x00, 0x01, 3), ⟨"CORE_DEVICE_STATUS_NTF", core_device_status_ntf⟩),
    ((0x00, 0x04, 1), ⟨"CORE_SET_CONFIG_CMD", core_set_config_cmd⟩),
    ((0x00, 0x04, 2), ⟨"CORE_SET_CONFIG_RSP", print_status_only⟩),
    ((0x01, 0x00, 1), ⟨"SESSION_INIT_CMD", session_init_cmd⟩),
    ((0x01, 0x00, 2), ⟨"SESSION_INIT_RSP", print_status_only⟩),
    ((0x01, 0x02, 3), ⟨"SESSION_STATUS_NTF", session_status_ntf⟩),
    ((0x01, 0x03, 1), ⟨"SESSION_SET_APP_CONFIG_CMD",
                       session_set_app_config_cmd⟩),
    ((0x01, 0x03, 2), ⟨"SESSION_SET_APP_CONFIG_RSP", print_status_only⟩),
    ((0x0e, 0x00, 1), ⟨"NXP_CORE_DEVICE_INIT_CMD",
                       nxp_core_device_init_cmd⟩),
    ((0x0e, 0x00, 2), ⟨"NXP_CORE_DEVICE_INIT_RSP", print_status_only⟩),
    ((0x0e, 0x11, 1), ⟨"NXP_SET_CALIBRATION_CMD", nxp_set_calibration_cmd⟩),
    ((0x0e, 0x11, 2), ⟨"NXP_SET_CALIBRATION_RSP", print_status_only⟩),
    ((0x0e, 0x10, 3), ⟨"NXP_SE_COMM_ERROR_NTF", nxp_se_comm_error_ntf⟩),
    ((0x0e, 0x13, 3), ⟨"NXP_BINDING_STAT_NTF", nxp_binding_stat_ntf⟩),
    ((0x02, 0x00, 2), ⟨"RANGE_START_RSP", print_status_only⟩),
    ((0x02, 0x00, 1), ⟨"RANGE_START_CMD", range_start_cmd⟩),
    ((0x02, 0x00, 3), ⟨"RANGE_DATA_NTF", range_data_ntf⟩) ]

/-- `print_packet`: dispatch by `(gid, oid, mt)`.  On a hit the packet
name is printed and the strategy runs; on a miss an
`UciPacketParseError` is returned whose message carries the header
description and a full payload hex dump. -/
def print_packet (pkt : Packet) : List OutItem × Status :=
  match pkt.gid, pkt.oid, pkt.mt with
  | some g, some o, some m =>
    match List.lookup (g, o, m) PACKETS with
    | some desc =>
      ((OutItem.id desc.name) :: (desc.print pkt).1, (desc.print pkt).2)
    | none =>
      match packetDisplay pkt, pkt.len with
      | some d, some plen =>
        match print_hexarr pkt 0 plen with
        | some dump =>
          ([], .err ("unrecognized packet " ++ d ++ " => payload: " ++ dump))
        | none => ([], .panic)
      | _, _ => ([], .panic)
  | _, _, _ => ([], .panic)

/- Specification-side definitions used for refinement comparisons. -/

/-- Modelled from the spec: the value of a `Q16(fractionalBits)` field is
the 2-byte raw value interpreted as a signed integer, divided by
`2 ^ fractionalBits`. -/
def q16SpecValue (fracBits raw : Nat) : ℚ :=
  ((if raw < 0x8000 then (raw : Int) else (raw : Int) - 0x10000) : ℚ) /
    2 ^ fracBits

/-- Modelled from the spec: a `Text` field decodes exactly the payload
bytes `[offset, offset+length)` — packet bytes `offset+4 .. offset+length+4`
— as UTF-8 with lossy replacement. -/
def textSpecInterp (pkt : Packet) (offset len : Nat) : Option String :=
  (pkt.slice offset len).map from_utf8_lossy

/- Claim C9. -/

/-- C9: for every non-reserved field whose declared size is incompatible
with the observed length, `print_field` yields the literal
`length mismatch expected=X, actual=Y` marker (with `X` the field size and
`Y` the observed length) instead of an error, so decoding continues. -/
theorem c9_length_mismatch (field : Field) (pkt : Packet) (offset len : Nat)
    (h1 : field.ptype.isRFU = false)
    (h2 : field.length_compatible len = false) :
    print_field field pkt offset len =
      some (.val ("length mismatch expected=" ++ toString field.size ++
                  ", actual=" ++ toString len)) := by
  simp [print_field, h1, h2]

/-- C9 witness: a `Hex16` field observed with length 3. -/
theorem c9_length_mismatch_witness :
    print_field ⟨"X", .Hex16⟩ ⟨[]⟩ 0 3 =
      some (.val "length mismatch expected=2, actual=3") :=
  c9_length_mismatch ⟨"X", .Hex16⟩ ⟨[]⟩ 0 3 rfl rfl

/- Claim C3. -/

/-- C3 counterexample: a `Q16` field with a compatible 2-byte value is
rendered as a raw hex dump, not as `rawValue / 2^fractionalBits`: two
fields with different fractional-bit counts (hence different fixed-point
values, since the raw value `0x8000` read from the packet is nonzero)
render to the same string. -/
theorem c3_q16_not_fixed_point :
    print_field ⟨"AoA Azimuth", ParamType.Q16 7⟩ ⟨[0, 0, 0, 2, 0x00, 0x80]⟩ 0 2 =
      some (FieldOut.val "\x7b 0x00 0x80 \x7d") ∧
    print_field ⟨"AoA Azimuth", ParamType.Q16 1⟩ ⟨[0, 0, 0, 2, 0x00, 0x80]⟩ 0 2 =
      print_field ⟨"AoA Azimuth", ParamType.Q16 7⟩ ⟨[0, 0, 0, 2, 0x00, 0x80]⟩ 0 2 ∧
    printfVal ⟨[0, 0, 0, 2, 0x00, 0x80]⟩ 0 2 = some 0x8000 ∧
    q16SpecValue 7 0x8000 ≠ q16SpecValue 1 0x8000 := by
  refine ⟨rfl, rfl, rfl, ?_⟩
  norm_num [q16SpecValue]

/-- C3 (amended): a `Q16` field with the compatible length 2 is rendered
by `print_field` as the hex byte-array dump of the two bytes (the
fall-through `_ => print_hexarr` arm); the fractional-bits parameter is
ignored. -/
theorem c3_q16_renders_hexdump (nm : String) (frac : Nat) (pkt : Packet)
    (offset : Nat) :
    print_field ⟨nm, .Q16 frac⟩ pkt offset 2 =
      (print_hexarr pkt offset 2).map FieldOut.val := rfl

/- Claim C4. -/

/-- C4: the `CharArray` (text) branch of `print_field` reads the raw
packet bytes `[offset, offset+len)` with no `+4` payload offset — on this
packet it decodes the header bytes `"AB"`, while the payload bytes
demanded by the spec decode to `"XY"`. -/
theorem c4_chararray_reads_header_bytes :
    print_field ⟨"TEXT", ParamType.CharArray 2⟩
        ⟨[0x41, 0x42, 0x43, 0x02, 0x58, 0x59]⟩ 0 2 =
      some (FieldOut.val "AB") ∧
    textSpecInterp ⟨[0x41, 0x42, 0x43, 0x02, 0x58, 0x59]⟩ 0 2 = some "XY" ∧
    ("AB" : String) ≠ "XY" :=
  ⟨rfl, rfl, by decide⟩

/- Claim C5. -/

/-- C5: the TLV decoder takes the extended 3-byte header branch exactly
when `id0 ≥ 0xE0`, at least 3 more bytes remain in the payload
(`offset + 3 ≤ payloadLen`), and an extended table was supplied; in every
other case (even with `id0 ≥ 0xE0`) the standard 2-byte branch is taken. -/
theorem c5_extended_branch_iff (b0 offset plen : Nat) (hasExt : Bool) :
    useExtended b0 offset plen hasExt = true ↔
      (0xe0 ≤ b0 ∧ offset + 3 ≤ plen ∧ hasExt = true) := by
  unfold useExtended
  by_cases h : b0 < 0xe0 ∨ offset + 3 > plen ∨ hasExt = false
  · rw [if_pos h]
    constructor
    · intro hf; exact absurd hf (by decide)
    · rintro ⟨h1, h2, h3⟩
      rcases h with h | h | h
      · omega
      · omega
      · rw [h3] at h; exact absurd h (by decide)
  · rw [if_neg h]
    push_neg at h
    obtain ⟨h1, h2, h3⟩ := h
    constructor
    · intro _
      refine ⟨by omega, by omega, ?_⟩
      cases hasExt
      · exact absurd rfl h3
      · rfl
    · intro _; rfl

/-- C5 witness: `id0 = 0xE4` at offset 0 of a 9-byte payload with an
extended table present activates the extended branch. -/
theorem c5_extended_branch_witness :
    useExtended 0xe4 0 9 true = true :=
  (c5_extended_branch_iff 0xe4 0 9 true).mpr ⟨by decide, by decide, rfl⟩

/- Claim C6. -/

/-- C6: `to_packet`'s byte-stage validation: sequences shorter than 4
bytes fail with the too-short error; sequences whose declared payload
length `bytes[3]` differs from `len(bytes) - 4` fail with the payload
length mismatch error; all others yield a packet over exactly those
bytes. -/
theorem c6_to_packet_validation (bytes : List Nat) :
    (bytes.length < 4 →
      toPacketBytes bytes = .error "packet length is less than 4 bytes") ∧
    (4 ≤ bytes.length → bytes.getD 3 0 ≠ bytes.length - 4 →
      toPacketBytes bytes =
        .error ("payload length mismatch: packet_len=" ++
                toString (bytes.getD 3 0) ++ " actual=" ++
                toString (bytes.length - 4))) ∧
    (4 ≤ bytes.length → bytes.getD 3 0 = bytes.length - 4 →
      toPacketBytes bytes = .ok ⟨bytes⟩) := by
  refine ⟨?_, ?_, ?_⟩
  · intro h
    simp only [toPacketBytes]
    rw [if_pos h]
  · intro h4 hne
    simp only [toPacketBytes]
    rw [if_neg (by omega), if_pos (by omega)]
  · intro h4 heq
    simp only [toPacketBytes]
    rw [if_neg (by omega), if_neg (by omega)]

/-- C6 witness: the three validation outcomes at concrete inputs. -/
theorem c6_to_packet_validation_witness :
    toPacketBytes [1, 2, 3] = .error "packet length is less than 4 bytes" ∧
    toPacketBytes [1, 2, 3, 7] =
      .error "payload length mismatch: packet_len=7 actual=0" ∧
    toPacketBytes [1, 2, 3, 1, 9] = .ok ⟨[1, 2, 3, 1, 9]⟩ :=
  ⟨(c6_to_packet_validation [1, 2, 3]).1 (by decide),
   (c6_to_packet_validation [1, 2, 3, 7]).2.1 (by decide) (by decide),
   (c6_to_packet_validation [1, 2, 3, 1, 9]).2.2 (by decide) (by decide)⟩

/- Claim C1. -/

set_option maxRecDepth 8192 in
/-- C1: a packet accepted by `to_packet` whose decoding strategy aborts
with an out-of-bounds panic rather than completing or returning a typed
error.  The packet is a well-formed `CORE_SET_CONFIG` command whose single
TLV entry declares length `0xFF` with only 2 payload bytes remaining: the
unknown-id hex dump indexes past the end of the byte sequence. -/
theorem c1_tlv_overlength_panics :
    to_packet "200400050155ff0000".data =
      .ok ⟨[0x20, 0x04, 0x00, 0x05, 0x01, 0x55, 0xff, 0x00, 0x00]⟩ ∧
    print_packet ⟨[0x20, 0x04, 0x00, 0x05, 0x01, 0x55, 0xff, 0x00, 0x00]⟩ =
      ([OutItem.id "CORE_SET_CONFIG_CMD",
        OutItem.param "Number of parameters" "1"], Status.panic) :=
  ⟨rfl, rfl⟩

/- Claim C2. -/

/-- C2 counterexample: for a packet whose identity `(0xF, 0x00, CMD)` has
no registry entry, `print_packet` emits nothing through the printer and
returns an `UciPacketParseError` — an error is raised, contradicting the
claim's "no error is raised"; the header description and hex dump appear
only inside the error message. -/
theorem c2_unrecognized_raises_error :
    print_packet ⟨[0x3f, 0x00, 0x00, 0x01, 0xab]⟩ =
      ([], Status.err
        "unrecognized packet mt:0x1 gid:0xf oid:0x0 len: 0x1 => payload: \x7b 0xab \x7d") ∧
    List.lookup ((0xf : Nat), (0x00 : Nat), (0x01 : Nat)) PACKETS = none :=
  ⟨rfl, rfl⟩

/-- C2 (amended): on a registry miss `print_packet` raises a typed
`UciPacketParseError` whose message carries the raw header description
plus a full hex dump of the payload, and emits nothing through the
printer; the top-level `parse` prints that message as ordinary output, so
the information is still reported, but through the error path. -/
theorem c2_unrecognized_falls_back_to_dump (pkt : Packet)
    (g o m plen : Nat) (d dump : String)
    (hg : pkt.gid = some g) (ho : pkt.oid = some o) (hm : pkt.mt = some m)
    (hmiss : List.lookup (g, o, m) PACKETS = none)
    (hd : packetDisplay pkt = some d) (hl : pkt.len = some plen)
    (hdump : print_hexarr pkt 0 plen = some dump) :
    print_packet pkt =
      ([], .err ("unrecognized packet " ++ d ++ " => payload: " ++ dump)) := by
  simp only [print_packet, hg, ho, hm, hmiss, hd, hl, hdump]

/-- C2 witness: the amended fallback at the concrete unregistered packet. -/
theorem c2_unrecognized_falls_back_witness :
    print_packet ⟨[0x3f, 0x00, 0x00, 0x01, 0xab]⟩ =
      ([], .err ("unrecognized packet " ++ "mt:0x1 gid:0xf oid:0x0 len: 0x1" ++
                 " => payload: " ++ "\x7b 0xab \x7d")) :=
  c2_unrecognized_falls_back_to_dump ⟨[0x3f, 0x00, 0x00, 0x01, 0xab]⟩
    0xf 0x00 0x01 1 "mt:0x1 gid:0xf oid:0x0 len: 0x1" "\x7b 0xab \x7d"
    rfl rfl rfl rfl rfl rfl rfl

/- Claim C7. -/

/-- Dropping the last element preserves lookups below the shortened
length. -/
theorem get?_dropLast {α : Type} (l : List α) (i : Nat)
    (h : i < l.length - 1) :
    l.dropLast.get? i = l.get? i := by
  rw [List.dropLast_eq_take, List.get?_eq_getElem?, List.get?_eq_getElem?,
      List.getElem?_take, if_pos h]

/-- C7: on an odd-length input, `parse_hexstr` behaves exactly as on the
same input with its last character removed — the trailing unpaired
character is dropped before conversion. -/
theorem c7_parse_hexstr_drops_last (s : List Char) (h : s.length % 2 = 1) :
    parse_hexstr s = parse_hexstr s.dropLast := by
  have e1 : (s.length % 2 == 1) = true := by simp [h]
  have e2 : ((s.length - 1) % 2 == 1) = false := by
    simp only [beq_eq_false_iff_ne, ne_eq]
    omega
  simp only [parse_hexstr, List.length_dropLast, e1, e2, if_true, if_false]
  congr 1
  apply List.map_congr_left
  intro k hk
  rw [List.mem_range] at hk
  have hb1 : 2 * k < s.length - 1 := by omega
  have hb2 : 2 * k + 1 < s.length - 1 := by omega
  unfold hexPairAt
  rw [get?_dropLast s (2 * k) hb1, get?_dropLast s (2 * k + 1) hb2]

/-- C7 witness: the odd-length input `"405"`. -/
theorem c7_parse_hexstr_drops_last_witness :
    parse_hexstr ['4', '0', '5'] = parse_hexstr (['4', '0', '5'].dropLast) :=
  c7_parse_hexstr_drops_last ['4', '0', '5'] (by decide)

/- Claim C8. -/

/-- Reserved fields always interpret to the no-output marker. -/
theorem print_field_rfu (f : Field) (pkt : Packet) (offset len : Nat)
    (h : f.ptype.isRFU = true) :
    print_field f pkt offset len = some .skip := by
  simp [print_field, h]

/-- One unfolding step of the static decoder loop. -/
theorem print_static_cons (pkt : Packet) (plen : Nat) (f : Field)
    (fs : List Field) (offset : Nat) (hlen : pkt.len = some plen) :
    _print_static pkt (f :: fs) offset =
      if offset + f.size > plen then ([], .err "length mismatch", offset)
      else
        match print_field f pkt offset f.size with
        | none => ([], .panic, offset)
        | some .skip => _print_static pkt fs (offset + f.size)
        | some (.val v) =>
          (OutItem.param f.name v :: (_print_static pkt fs (offset + f.size)).1,
           (_print_static pkt fs (offset + f.size)).2) := by
  simp only [_print_static]
  rw [hlen]

/-- C8: the static decoder walks its field list with a running offset
starting at 0; a field that would overrun the declared payload length
stops the decode with the `length mismatch` error; a reserved field
emits nothing and only advances the offset; any other field emits its
interpreted value under its name and advances the offset; and everything
emitted by an earlier, successfully decoded prefix of the field list is
preserved in front of whatever the rest of the list produces. -/
theorem c8_static_decoder_behaviour (pkt : Packet) (plen : Nat) (f : Field)
    (fs : List Field) (offset : Nat) (v : String)
    (hlen : pkt.len = some plen) :
    (print_static pkt (f :: fs) =
      ((_print_static pkt (f :: fs) 0).1, (_print_static pkt (f :: fs) 0).2.1)) ∧
    (offset + f.size > plen →
      _print_static pkt (f :: fs) offset = ([], .err "length mismatch", offset)) ∧
    (offset + f.size ≤ plen → f.ptype.isRFU = true →
      _print_static pkt (f :: fs) offset = _print_static pkt fs (offset + f.size)) ∧
    (offset + f.size ≤ plen →
      print_field f pkt offset f.size = some (.val v) →
      _print_static pkt (f :: fs) offset =
        (OutItem.param f.name v :: (_print_static pkt fs (offset + f.size)).1,
         (_print_static pkt fs (offset + f.size)).2)) ∧
    (∀ fs1 fs2 : List Field, ∀ off out1 off1,
      _print_static pkt fs1 off = (out1, .ok, off1) →
      _print_static pkt (fs1 ++ fs2) off =
        (out1 ++ (_print_static pkt fs2 off1).1,
         (_print_static pkt fs2 off1).2)) := by
  refine ⟨rfl, ?_, ?_, ?_, ?_⟩
  · intro hover
    rw [print_static_cons pkt plen f fs offset hlen, if_pos hover]
  · intro hfit hrfu
    rw [print_static_cons pkt plen f fs offset hlen, if_neg (by omega),
        print_field_rfu f pkt offset f.size hrfu]
  · intro hfit hval
    rw [print_static_cons pkt plen f fs offset hlen, if_neg (by omega), hval]
  · intro fs1
    induction fs1 with
    | nil =>
      intro fs2 off out1 off1 hrun
      simp only [_print_static, Prod.mk.injEq] at hrun
      obtain ⟨rfl, -, rfl⟩ := hrun
      simp
    | cons f1 fs1 ih =>
      intro fs2 off out1 off1 hrun
      rw [List.cons_append, print_static_cons pkt plen f1 (fs1 ++ fs2) off hlen]
      rw [print_static_cons pkt plen f1 fs1 off hlen] at hrun
      by_cases hb : off + f1.size > plen
      · rw [if_pos hb] at hrun
        simp at hrun
      · rw [if_neg hb] at hrun
        rw [if_neg hb]
        cases hpf : print_field f1 pkt off f1.size with
        | none =>
          rw [hpf] at hrun
          simp at hrun
        | some fo =>
          rw [hpf] at hrun
          cases fo with
          | skip =>
            simp only [] at hrun ⊢
            exact ih fs2 (off + f1.size) out1 off1 hrun
          | val v1 =>
            simp only [] at hrun ⊢
            simp only [Prod.mk.injEq] at hrun
            obtain ⟨h1, h2⟩ := hrun
            have hr := ih fs2 (off + f1.size)
              (_print_static pkt fs1 (off + f1.size)).1 off1
              (by rw [Prod.ext_iff]; exact ⟨rfl, h2⟩)
            rw [hr, ← h1]
            simp

/-- C8 witness: one `Hex8` field over a 2-byte payload, decoded at
offset 0 and emitted under its name. -/
theorem c8_static_decoder_witness :
    _print_static ⟨[0, 0, 0, 2, 7, 9]⟩ [⟨"A", .Hex8⟩] 0 =
      (OutItem.param "A" "0x7" :: (_print_static ⟨[0, 0, 0, 2, 7, 9]⟩ [] 1).1,
       (_print_static ⟨[0, 0, 0, 2, 7, 9]⟩ [] 1).2) :=
  (c8_static_decoder_behaviour ⟨[0, 0, 0, 2, 7, 9]⟩ 2 ⟨"A", .Hex8⟩ [] 0 "0x7"
    rfl).2.2.2.1 (by decide) rfl

/- Claim C10. -/

/-- In-bounds indices always yield a value. -/
theorem get?_isSome_of_lt {α : Type} (l : List α) (i : Nat)
    (h : i < l.length) : (l.get? i).isSome := by
  rw [List.get?_eq_getElem?, List.getElem?_eq_getElem h]
  rfl

/-- C10: every packet produced by `to_packet` satisfies the invariant
`len(bytes) ≥ 4` and `bytes[3] = len(bytes) - 4` (and, being an
immutable value, keeps it); hence the header accessors `mt`, `gid`,
`oid`, `len` are in bounds, and every payload `get`/`slice` bounded by
the declared payload length stays inside the byte sequence. -/
theorem c10_packet_invariant (s : List Char) (p : Packet)
    (h : to_packet s = .ok p) :
    4 ≤ p.bytes.length ∧
    p.bytes.getD 3 0 = p.bytes.length - 4 ∧
    p.mt.isSome ∧ p.gid.isSome ∧ p.oid.isSome ∧ p.len.isSome ∧
    (∀ i, i < p.bytes.getD 3 0 → (p.get i).isSome) ∧
    (∀ i l, i + l ≤ p.bytes.getD 3 0 → (p.slice i l).isSome) := by
  have hbase : 4 ≤ p.bytes.length ∧ p.bytes.getD 3 0 = p.bytes.length - 4 := by
    unfold to_packet at h
    cases hp : parse_hexstr s with
    | none =>
      rw [hp] at h
      exact absurd h (by simp)
    | some bytes =>
      rw [hp] at h
      simp only [toPacketBytes] at h
      by_cases h4 : bytes.length < 4
      · rw [if_pos h4] at h
        exact absurd h (by simp)
      · rw [if_neg h4] at h
        by_cases hm : bytes.length - 4 ≠ bytes.getD 3 0
        · rw [if_pos hm] at h
          exact absurd h (by simp)
        · rw [if_neg hm] at h
          injection h with h2
          subst h2
          push_neg at hm
          exact ⟨by show 4 ≤ bytes.length; omega,
                 by show bytes.getD 3 0 = bytes.length - 4; omega⟩
  obtain ⟨h4, hD⟩ := hbase
  refine ⟨h4, hD, ?_, ?_, ?_, ?_, ?_, ?_⟩
  · unfold Packet.mt
    rcases Option.isSome_iff_exists.mp (get?_isSome_of_lt p.bytes 0 (by omega))
      with ⟨b, hb⟩
    rw [hb]
    rfl
  · unfold Packet.gid
    rcases Option.isSome_iff_exists.mp (get?_isSome_of_lt p.bytes 0 (by omega))
      with ⟨b, hb⟩
    rw [hb]
    rfl
  · exact get?_isSome_of_lt p.bytes 1 (by omega)
  · exact get?_isSome_of_lt p.bytes 3 (by omega)
  · intro i hi
    exact get?_isSome_of_lt p.bytes (i + 4) (by omega)
  · intro i l hil
    unfold Packet.slice
    rw [if_pos (by omega)]
    rfl

/-- C10 witness: payload accesses on the packet parsed from
`"4000000141"`. -/
theorem c10_packet_invariant_witness :
    (Packet.get ⟨[0x40, 0x00, 0x00, 0x01, 0x41]⟩ 0).isSome ∧
    (Packet.slice ⟨[0x40, 0x00, 0x00, 0x01, 0x41]⟩ 0 1).isSome := by
  have h := c10_packet_invariant "4000000141".data
    ⟨[0x40, 0x00, 0x00, 0x01, 0x41]⟩ rfl
  exact ⟨h.2.2.2.2.2.2.1 0 (by decide), h.2.2.2.2.2.2.2 0 1 (by decide)⟩

end Uci
